import Mathlib

set_option maxHeartbeats 1000000

/-!
Shallow embedding of the TursoSharp native bindings
(`src/bindings/src/lib.rs` and `src/bindings/src/transaction.rs`).

Modelling conventions:
* A raw C pointer argument is `Option α`: `none` is the null pointer.
* A `*const c_char` argument is `Option CStrVal`: `none` is null,
  `CStrVal.invalid` is a non-null pointer to bytes that are not valid UTF-8,
  `CStrVal.valid s` is a pointer to the UTF-8 string `s`.
* The engine (`turso_core`) is an opaque external collaborator.  A prepared
  statement is modelled by the finite behaviour the boundary layer can
  observe from it: the sequence of `step()` outcomes (a finite prefix of
  successful or failing `run_once` I/O pumps followed by a terminal
  outcome), the change counter `n_change()`, the currently positioned row
  (`row()`, a total function from column index to `Value`), the column
  count and names, and the record of `bind_at` calls.
* An f64 crossing this boundary is only ever copied or rendered with
  `Display`; it is modelled by its canonical decimal rendering.
* `std::panic::catch_unwind` is modelled with the `Outcome` type: a body
  either `ret`urns a value or is `panicked`.  A fault (`fault := true`)
  stands for an unwinding panic raised by the opaque engine, lock or
  allocator calls of the operation's body; paths that return before
  reaching any such call ignore the flag.  Operations whose source wraps
  the body in `catch_unwind` can therefore never produce `panicked`;
  the three `turso_free_*` functions, whose sources have no such wrapper,
  propagate it.
* A poisoned mutex (`poisoned := true`) makes `lock()` fail, as after a
  prior fault.
-/

namespace Turso

/-- Outcome of running an operation across the ABI: either a returned value
or an unwinding panic escaping into the caller. -/
inductive Outcome (α : Type) where
  | panicked : Outcome α
  | ret (a : α) : Outcome α
deriving DecidableEq

/-- `std::panic::catch_unwind`: converts a possibly panicking body into a
Rust `Result` (here `Except Unit`). -/
def catch_unwind {α : Type} : Outcome α → Except Unit α
  | .panicked => .error ()
  | .ret a => .ok a

/-- The common pattern `catch_unwind(body)` followed by replacing a caught
panic with a fallback value (`unwrap_or` / `unwrap_or_else`). -/
def barrier {α : Type} (fault : Bool) (onPanic : α) (body : α) : α :=
  match catch_unwind (if fault then Outcome.panicked else Outcome.ret body) with
  | .error () => onPanic
  | .ok r => r

/-- A non-null `*const c_char` argument: either invalid UTF-8 or a string. -/
inductive CStrVal where
  | invalid : CStrVal
  | valid (s : String) : CStrVal
deriving DecidableEq

/-- The `Error` enum of `lib.rs` (the two variants the exported operations
construct). -/
inductive Error where
  | MutexError (s : String) : Error
  | SqlExecutionFailure (s : String) : Error
deriving DecidableEq

/-- The `thiserror` `Display` rendering of `Error`. -/
def Error.toString : Error → String
  | .MutexError s => "Mutex lock error: " ++ s
  | .SqlExecutionFailure s => "SQL execution failure: `" ++ s ++ "`"

/-- An f64 modelled by its canonical decimal `Display` rendering. -/
structure FloatVal where
  display : String
deriving DecidableEq

/-- The engine's tagged value union `turso_core::Value`.  Blob bytes are
modelled as a list of naturals. -/
inductive Value where
  | null : Value
  | integer (i : Int) : Value
  | float (f : FloatVal) : Value
  | text (s : String) : Value
  | blob (b : List Nat) : Value
deriving DecidableEq

/-- `turso_core::Value::from_text`. -/
def Value.from_text (s : String) : Value := .text s

/-- `turso_core::Value::from_blob`. -/
def Value.from_blob (b : List Nat) : Value := .blob b

/-- `i64::to_string()`: decimal rendering of a 64-bit integer. -/
def intToString (i : Int) : String := toString i

/-- Whether a string contains an interior NUL byte, the condition under
which `CString::new` fails. -/
def hasNulByte (s : String) : Bool := s.data.any (fun c => c = Char.ofNat 0)

/-- The `TursoFFIResult` envelope.  `error_message` is an owned C string or
null, modelled as `Option String`. -/
structure TursoFFIResult where
  success : Bool
  error_message : Option String
deriving DecidableEq

/-- `TursoFFIResult::success()`. -/
def TursoFFIResult.mkSuccess : TursoFFIResult := ⟨true, none⟩

/-- `TursoFFIResult::error(message)`: `CString::new` fails exactly on an
interior NUL byte, in which case the fixed fallback message is used. -/
def TursoFFIResult.mkError (message : String) : TursoFFIResult :=
  ⟨false, some (if hasNulByte message then "Invalid error message" else message)⟩

/-- `TursoFFIResult::from_result`. -/
def TursoFFIResult.from_result : Except Error Unit → TursoFFIResult
  | .ok () => .mkSuccess
  | .error e => .mkError e.toString

/-- Terminal outcome of driving one prepared statement: the step result on
which the boundary layer's loop stops pumping I/O. -/
inductive Terminal where
  | row : Terminal
  | done : Terminal
  | busy : Terminal
  | interrupt : Terminal
  | stepErr (msg : String) : Terminal
deriving DecidableEq

/-- One `StepResult::IO` round: the outcome of the `run_once()` pump. -/
inductive RunStep where
  | ok : RunStep
  | fail (msg : String) : RunStep
deriving DecidableEq

/-- The observable stepping behaviour of a prepared statement: a finite
sequence of `IO` steps (with their `run_once` outcomes) followed by a
terminal step outcome. -/
structure StepTrace where
  ios : List RunStep
  final : Terminal
deriving DecidableEq

def runStepOk : RunStep → Bool
  | .ok => true
  | .fail _ => false

/-- All I/O pumps of the trace succeed. -/
def iosOk (l : List RunStep) : Bool := l.all runStepOk

/-- Model of an engine prepared statement (`turso_core::Statement`) as seen
through the boundary layer. -/
structure StmtModel where
  trace : StepTrace
  nChange : Int
  row : Option (Nat → Value)
  numColumns : Nat
  columnName : Nat → String
  bound : List (Nat × Value)

/-- Model of an engine connection: `prepare` maps SQL text to a statement
or an engine error message, `autocommit` is `get_auto_commit()`. -/
structure ConnModel where
  prepare : String → Except String StmtModel
  autocommit : Bool

/-- Model of `Arc<Database>`: `connect()` yields a connection or an engine
error. -/
structure EngineDatabase where
  connect : Except String ConnModel

/-- The `TransactionBehavior` enum of `transaction.rs`. -/
inductive TransactionBehavior where
  | Deferred : TransactionBehavior
  | Immediate : TransactionBehavior
  | Exclusive : TransactionBehavior
deriving DecidableEq

/-- `DatabaseWrapper`. -/
structure DatabaseWrapper where
  database : EngineDatabase

/-- `ConnectionWrapper`: internally locked shared connection plus the
recorded transaction behaviour. -/
structure ConnectionWrapper where
  poisoned : Bool
  connection : ConnModel
  transaction_behavior : TransactionBehavior

/-- `StatementWrapper`. -/
structure StatementWrapper where
  poisoned : Bool
  statement : StmtModel

/-- `RowsWrapper`. -/
structure RowsWrapper where
  poisoned : Bool
  inner : StmtModel

/-- The `Display` text of a `std::sync::PoisonError`. -/
def poisonMsg : String := "poisoned lock: another task failed inside"

/-- `connection.lock().map_err(|e| Error::MutexError(e.to_string()))`. -/
def lockConn (c : ConnectionWrapper) : Except Error ConnModel :=
  if c.poisoned then .error (.MutexError poisonMsg) else .ok c.connection

/-- `statement.lock().map_err(|e| Error::MutexError(e.to_string()))`. -/
def lockStmt (w : StatementWrapper) : Except Error StmtModel :=
  if w.poisoned then .error (.MutexError poisonMsg) else .ok w.statement

/-! ### Step loops

Each exported operation that drives a statement has its own copy of the
`loop { match stmt.step() { ... } }` block in the source; the blocks of
`begin`/`commit`/`rollback` differ only in the message reported for an
unexpected `Row`, and those of `turso_rows_next`/`turso_statement_step`
are identical, so they share one model function here. -/

/-- The step loop of `turso_connection_begin_transaction`,
`turso_connection_commit_transaction` and
`turso_connection_rollback_transaction`: `Done` succeeds, `Row` is the
error `rowMsg`, `Busy`/`Interrupt`/step errors and failing `run_once()?`
calls propagate as `SqlExecutionFailure`. -/
def controlLoop (rowMsg : String) : List RunStep → Terminal → Except Error Unit
  | [], .done => .ok ()
  | [], .row => .error (.SqlExecutionFailure rowMsg)
  | [], .busy => .error (.SqlExecutionFailure "database is locked")
  | [], .interrupt => .error (.SqlExecutionFailure "interrupted")
  | [], .stepErr m => .error (.SqlExecutionFailure m)
  | .ok :: rest, fin => controlLoop rowMsg rest fin
  | .fail m :: _, _ => .error (.SqlExecutionFailure m)

/-- The step loop of `turso_connection_execute`: like `controlLoop` with
row message `"unexpected row during execution"`, except that on `Done` it
also writes `changes.max(0) as u64` through the `rows_changed`
out-parameter when that pointer is non-null.  The second component is the
value written (none if no write happened). -/
def executeLoop (rowsChangedNull : Bool) (nChange : Int) :
    List RunStep → Terminal → Except Error Unit × Option Nat
  | [], .done =>
      (.ok (), if rowsChangedNull then none else some (max nChange 0).toNat)
  | [], .row => (.error (.SqlExecutionFailure "unexpected row during execution"), none)
  | [], .busy => (.error (.SqlExecutionFailure "database is locked"), none)
  | [], .interrupt => (.error (.SqlExecutionFailure "interrupted"), none)
  | [], .stepErr m => (.error (.SqlExecutionFailure m), none)
  | .ok :: rest, fin => executeLoop rowsChangedNull nChange rest fin
  | .fail m :: _, _ => (.error (.SqlExecutionFailure m), none)

/-- The step loop of `turso_rows_next` and `turso_statement_step`:
`Row` yields 1, `Done` yields 0, everything else is a `&str` error that
the caller of the loop maps to -1. -/
def stepCodeLoop : List RunStep → Terminal → Except String Int
  | [], .row => .ok 1
  | [], .done => .ok 0
  | [], .busy => .error "Database is locked"
  | [], .interrupt => .error "Interrupted"
  | [], .stepErr _ => .error "Step failed"
  | .ok :: rest, fin => stepCodeLoop rest fin
  | .fail _ :: _, _ => .error "I/O error"

/-- The step loop of `turso_connection_query_scalar_int`: on `Row` the
first column of the current row must be an `Integer`, which is written to
the out-parameter; `Done` means no rows. -/
def scalarIntLoop (stRow : Option (Nat → Value)) :
    List RunStep → Terminal → Except Error Int
  | [], .row =>
      match stRow with
      | some getv =>
          match getv 0 with
          | .integer i => .ok i
          | _ => .error (.SqlExecutionFailure "Expected integer value")
      | none => .error (.SqlExecutionFailure "No row data available")
  | [], .done => .error (.SqlExecutionFailure "No rows returned")
  | [], .busy => .error (.SqlExecutionFailure "database is locked")
  | [], .interrupt => .error (.SqlExecutionFailure "interrupted")
  | [], .stepErr m => .error (.SqlExecutionFailure m)
  | .ok :: rest, fin => scalarIntLoop stRow rest fin
  | .fail m :: _, _ => .error (.SqlExecutionFailure m)

/-- The step loop of `turso_connection_query_scalar_string`: on `Row` the
first column must be `Text` (returned through `CString::new`); every other
outcome, including `Busy`, `Interrupt` and step errors (the `_ => return
None` arm), yields null. -/
def scalarStringLoop (stRow : Option (Nat → Value)) :
    List RunStep → Terminal → Option String
  | [], .row =>
      match stRow with
      | some getv =>
          match getv 0 with
          | .text s => if hasNulByte s then none else some s
          | _ => none
      | none => none
  | [], .done => none
  | [], .busy => none
  | [], .interrupt => none
  | [], .stepErr _ => none
  | .ok :: rest, fin => scalarStringLoop stRow rest fin
  | .fail _ :: _, _ => none

/-! ### Exported operations -/

/-- `turso_database_open_memory`: the engine open result is the opaque
input; a panic or engine error yields null. -/
def turso_database_open_memory (engineOpen : Except String EngineDatabase)
    (fault : Bool) : Outcome (Option DatabaseWrapper) :=
  .ret (match catch_unwind (if fault then Outcome.panicked else .ret engineOpen) with
        | .ok (.ok d) => some ⟨d⟩
        | _ => none)

/-- `turso_database_open_file`: null path yields null before the barrier;
inside it, invalid UTF-8 and a failing `PlatformIO::new()` are errors; the
`":memory:"` path skips platform I/O creation.  `engineOpen` is the
outcome of `Database::open_file`. -/
def turso_database_open_file (path : Option CStrVal) (platformIOOk : Bool)
    (engineOpen : Except String EngineDatabase) (fault : Bool) :
    Outcome (Option DatabaseWrapper) :=
  match path with
  | none => .ret none
  | some pv =>
    .ret (barrier fault none
      (match pv with
       | .invalid => none
       | .valid p =>
         if p = ":memory:" then
           match engineOpen with
           | .ok d => some ⟨d⟩
           | .error _ => none
         else if platformIOOk then
           match engineOpen with
           | .ok d => some ⟨d⟩
           | .error _ => none
         else none))

/-- The shared shape of the close/finalize operations: the body only
reconstructs and drops the box, so its observable result is the success
envelope, or the panic message error under a fault. -/
def closeEnvelope (fault : Bool) (panicMsg : String) : TursoFFIResult :=
  TursoFFIResult.from_result
    (barrier fault (.error (.SqlExecutionFailure panicMsg)) (.ok ()))

/-- `turso_database_close`. -/
def turso_database_close (db : Option DatabaseWrapper) (fault : Bool) :
    Outcome TursoFFIResult :=
  match db with
  | none => .ret (.mkError "Database pointer is null")
  | some _ => .ret (closeEnvelope fault "Panic in database_close")

/-- `turso_connection_open`. -/
def turso_connection_open (db : Option DatabaseWrapper) (fault : Bool) :
    Outcome (Option ConnectionWrapper) :=
  match db with
  | none => .ret none
  | some d =>
    .ret (barrier fault none
      (match d.database.connect with
       | .ok conn =>
         some { poisoned := false, connection := conn,
                transaction_behavior := .Deferred }
       | .error _ => none))

/-- `turso_connection_close`. -/
def turso_connection_close (conn : Option ConnectionWrapper) (fault : Bool) :
    Outcome TursoFFIResult :=
  match conn with
  | none => .ret (.mkError "Connection pointer is null")
  | some _ => .ret (closeEnvelope fault "Panic in connection_close")

/-- `turso_connection_execute`.  The second component is the value written
through the `rows_changed` out-parameter, if any. -/
def turso_connection_execute (conn : Option ConnectionWrapper)
    (sql : Option CStrVal) (rowsChangedNull : Bool) (fault : Bool) :
    Outcome (TursoFFIResult × Option Nat) :=
  match conn with
  | none => .ret (.mkError "Invalid parameters", none)
  | some c =>
    match sql with
    | none => .ret (.mkError "Invalid parameters", none)
    | some .invalid =>
      .ret (TursoFFIResult.from_result
              (.error (.SqlExecutionFailure "Invalid SQL string")), none)
    | some (.valid s) =>
      let p : Except Error Unit × Option Nat :=
        barrier fault (.error (.SqlExecutionFailure "Panic in connection_execute"), none)
          (match lockConn c with
           | .error e => (.error e, none)
           | .ok conn2 =>
             match conn2.prepare s with
             | .error m => (.error (.SqlExecutionFailure m), none)
             | .ok st => executeLoop rowsChangedNull st.nChange st.trace.ios st.trace.final)
      .ret (TursoFFIResult.from_result p.1, p.2)

/-- `turso_connection_query`: a fresh `RowsWrapper` (with a fresh,
unpoisoned mutex) around the prepared statement, or null on any failure. -/
def turso_connection_query (conn : Option ConnectionWrapper)
    (sql : Option CStrVal) (fault : Bool) : Outcome (Option RowsWrapper) :=
  match conn with
  | none => .ret none
  | some c =>
    match sql with
    | none => .ret none
    | some .invalid => .ret none
    | some (.valid s) =>
      .ret (barrier fault none
        (if c.poisoned then none
         else
           match c.connection.prepare s with
           | .error _ => none
           | .ok st => some { poisoned := false, inner := st }))

/-- `turso_connection_query_scalar_int`.  The second component is the value
written through the `result` out-parameter, if any. -/
def turso_connection_query_scalar_int (conn : Option ConnectionWrapper)
    (sql : Option CStrVal) (resultNull : Bool) (fault : Bool) :
    Outcome (TursoFFIResult × Option Int) :=
  match conn with
  | none => .ret (.mkError "Invalid parameters", none)
  | some c =>
    match sql with
    | none => .ret (.mkError "Invalid parameters", none)
    | some sv =>
      if resultNull then .ret (.mkError "Invalid parameters", none)
      else
        match sv with
        | .invalid =>
          .ret (TursoFFIResult.from_result
                  (.error (.SqlExecutionFailure "Invalid SQL string")), none)
        | .valid s =>
          let p : Except Error Unit × Option Int :=
            barrier fault (.error (.SqlExecutionFailure "Panic in query_scalar_int"), none)
              (match lockConn c with
               | .error e => (.error e, none)
               | .ok conn2 =>
                 match conn2.prepare s with
                 | .error m => (.error (.SqlExecutionFailure m), none)
                 | .ok st =>
                   match scalarIntLoop st.row st.trace.ios st.trace.final with
                   | .ok i => (.ok (), some i)
                   | .error e => (.error e, none))
          .ret (TursoFFIResult.from_result p.1, p.2)

/-- `turso_connection_query_scalar_string`. -/
def turso_connection_query_scalar_string (conn : Option ConnectionWrapper)
    (sql : Option CStrVal) (fault : Bool) : Outcome (Option String) :=
  match conn with
  | none => .ret none
  | some c =>
    match sql with
    | none => .ret none
    | some .invalid => .ret none
    | some (.valid s) =>
      .ret (barrier fault none
        (if c.poisoned then none
         else
           match c.connection.prepare s with
           | .error _ => none
           | .ok st => scalarStringLoop st.row st.trace.ios st.trace.final))

/-- `turso_connection_prepare`. -/
def turso_connection_prepare (conn : Option ConnectionWrapper)
    (sql : Option CStrVal) (fault : Bool) : Outcome (Option StatementWrapper) :=
  match conn with
  | none => .ret none
  | some c =>
    match sql with
    | none => .ret none
    | some .invalid => .ret none
    | some (.valid s) =>
      .ret (barrier fault none
        (if c.poisoned then none
         else
           match c.connection.prepare s with
           | .error _ => none
           | .ok st => some { poisoned := false, statement := st }))

/-- `turso_rows_next`. -/
def turso_rows_next (rows : Option RowsWrapper) (fault : Bool) : Outcome Int :=
  match rows with
  | none => .ret (-1)
  | some r =>
    .ret (match barrier fault (Except.error "Panic in rows_next")
            (if r.poisoned then Except.error "Failed to acquire statement lock"
             else stepCodeLoop r.inner.trace.ios r.inner.trace.final) with
          | .ok v => v
          | .error _ => -1)

/-- `turso_rows_close`. -/
def turso_rows_close (rows : Option RowsWrapper) (fault : Bool) :
    Outcome TursoFFIResult :=
  match rows with
  | none => .ret (.mkError "Rows pointer is null")
  | some _ => .ret (closeEnvelope fault "Panic in rows_close")

/-- `turso_statement_step`. -/
def turso_statement_step (stmt : Option StatementWrapper) (fault : Bool) :
    Outcome Int :=
  match stmt with
  | none => .ret (-1)
  | some w =>
    .ret (match barrier fault (Except.error "Panic in statement_step")
            (if w.poisoned then Except.error "Failed to acquire statement lock"
             else stepCodeLoop w.statement.trace.ios w.statement.trace.final) with
          | .ok v => v
          | .error _ => -1)

/-! ### Column operations

The `turso_rows_*` and `turso_statement_*` column accessors have byte-for-
byte identical bodies in the source (only the wrapper type differs), so
each pair shares a core function over the wrapper's poisoned flag and
statement model. -/

/-- Core of `turso_rows_column_count` / `turso_statement_column_count`. -/
def columnCountCore (poisoned : Bool) (st : StmtModel) (fault : Bool) : Int :=
  match barrier fault none
      (if poisoned then (none : Option Int) else some (st.numColumns : Int)) with
  | some n => n
  | none => -1

/-- `turso_rows_column_count`. -/
def turso_rows_column_count (rows : Option RowsWrapper) (fault : Bool) :
    Outcome Int :=
  match rows with
  | none => .ret (-1)
  | some r => .ret (columnCountCore r.poisoned r.inner fault)

/-- `turso_statement_column_count`. -/
def turso_statement_column_count (stmt : Option StatementWrapper) (fault : Bool) :
    Outcome Int :=
  match stmt with
  | none => .ret (-1)
  | some w => .ret (columnCountCore w.poisoned w.statement fault)

/-- Core of `turso_rows_column_name` / `turso_statement_column_name`:
`get_column_name` followed by `CString::new(..).ok()`. -/
def columnNameCore (poisoned : Bool) (st : StmtModel) (idx : Int) (fault : Bool) :
    Option String :=
  barrier fault none
    (if poisoned then none
     else
       let nm := st.columnName idx.toNat
       if hasNulByte nm then none else some nm)

/-- `turso_rows_column_name`. -/
def turso_rows_column_name (rows : Option RowsWrapper) (idx : Int) (fault : Bool) :
    Outcome (Option String) :=
  match rows with
  | none => .ret none
  | some r =>
    if idx < 0 then .ret none
    else .ret (columnNameCore r.poisoned r.inner idx fault)

/-- `turso_statement_column_name`. -/
def turso_statement_column_name (stmt : Option StatementWrapper) (idx : Int)
    (fault : Bool) : Outcome (Option String) :=
  match stmt with
  | none => .ret none
  | some w =>
    if idx < 0 then .ret none
    else .ret (columnNameCore w.poisoned w.statement idx fault)

/-- The integer type tag assigned to each `Value` variant by the
`column_type` operations: 0=Null, 1=Integer, 2=Real, 3=Text, 4=Blob. -/
def valueTypeTag : Value → Int
  | .null => 0
  | .integer _ => 1
  | .float _ => 2
  | .text _ => 3
  | .blob _ => 4

/-- Core of `turso_rows_column_type` / `turso_statement_column_type`. -/
def columnTypeCore (poisoned : Bool) (st : StmtModel) (idx : Int) (fault : Bool) :
    Int :=
  match barrier fault none
      (if poisoned then none
       else
         match st.row with
         | some getv => some (valueTypeTag (getv idx.toNat))
         | none => none) with
  | some t => t
  | none => -1

/-- `turso_rows_column_type`. -/
def turso_rows_column_type (rows : Option RowsWrapper) (idx : Int) (fault : Bool) :
    Outcome Int :=
  match rows with
  | none => .ret (-1)
  | some r =>
    if idx < 0 then .ret (-1)
    else .ret (columnTypeCore r.poisoned r.inner idx fault)

/-- `turso_statement_column_type`. -/
def turso_statement_column_type (stmt : Option StatementWrapper) (idx : Int)
    (fault : Bool) : Outcome Int :=
  match stmt with
  | none => .ret (-1)
  | some w =>
    if idx < 0 then .ret (-1)
    else .ret (columnTypeCore w.poisoned w.statement idx fault)

/-- Core of `turso_rows_column_int64` / `turso_statement_column_int64`:
the integer value if the column is `Integer`, 0 otherwise. -/
def columnInt64Core (poisoned : Bool) (st : StmtModel) (idx : Int) (fault : Bool) :
    Int :=
  match barrier fault none
      (if poisoned then none
       else
         match st.row with
         | some getv =>
           match getv idx.toNat with
           | .integer i => some i
           | _ => some 0
         | none => some 0) with
  | some v => v
  | none => 0

/-- `turso_rows_column_int64`. -/
def turso_rows_column_int64 (rows : Option RowsWrapper) (idx : Int) (fault : Bool) :
    Outcome Int :=
  match rows with
  | none => .ret 0
  | some r =>
    if idx < 0 then .ret 0
    else .ret (columnInt64Core r.poisoned r.inner idx fault)

/-- `turso_statement_column_int64`. -/
def turso_statement_column_int64 (stmt : Option StatementWrapper) (idx : Int)
    (fault : Bool) : Outcome Int :=
  match stmt with
  | none => .ret 0
  | some w =>
    if idx < 0 then .ret 0
    else .ret (columnInt64Core w.poisoned w.statement idx fault)

/-- The f64 produced by the `column_double` operations, kept symbolic:
literal `0.0`, the stored float, or the `as f64` cast of the stored
integer. -/
inductive DoubleResult where
  | zero : DoubleResult
  | ofFloat (f : FloatVal) : DoubleResult
  | ofInt (i : Int) : DoubleResult
deriving DecidableEq

/-- Core of `turso_rows_column_double` / `turso_statement_column_double`. -/
def columnDoubleCore (poisoned : Bool) (st : StmtModel) (idx : Int) (fault : Bool) :
    DoubleResult :=
  match barrier fault none
      (if poisoned then none
       else
         match st.row with
         | some getv =>
           match getv idx.toNat with
           | .float f => some (DoubleResult.ofFloat f)
           | .integer i => some (DoubleResult.ofInt i)
           | _ => some DoubleResult.zero
         | none => some DoubleResult.zero) with
  | some v => v
  | none => .zero

/-- `turso_rows_column_double`. -/
def turso_rows_column_double (rows : Option RowsWrapper) (idx : Int) (fault : Bool) :
    Outcome DoubleResult :=
  match rows with
  | none => .ret .zero
  | some r =>
    if idx < 0 then .ret .zero
    else .ret (columnDoubleCore r.poisoned r.inner idx fault)

/-- `turso_statement_column_double`. -/
def turso_statement_column_double (stmt : Option StatementWrapper) (idx : Int)
    (fault : Bool) : Outcome DoubleResult :=
  match stmt with
  | none => .ret .zero
  | some w =>
    if idx < 0 then .ret .zero
    else .ret (columnDoubleCore w.poisoned w.statement idx fault)

/-- The stringification applied by the `column_text` operations before
`CString::new`: text as is, `i64`/`f64` via `to_string()`, no value for
`Null`/`Blob`. -/
def columnTextOf : Value → Option String
  | .text s => some s
  | .integer i => some (intToString i)
  | .float f => some f.display
  | .null => none
  | .blob _ => none

/-- Core of `turso_rows_column_text` / `turso_statement_column_text`. -/
def columnTextCore (poisoned : Bool) (st : StmtModel) (idx : Int) (fault : Bool) :
    Option String :=
  barrier fault none
    (if poisoned then none
     else
       match st.row with
       | some getv =>
         match columnTextOf (getv idx.toNat) with
         | some t => if hasNulByte t then none else some t
         | none => none
       | none => none)

/-- `turso_rows_column_text`. -/
def turso_rows_column_text (rows : Option RowsWrapper) (idx : Int) (fault : Bool) :
    Outcome (Option String) :=
  match rows with
  | none => .ret none
  | some r =>
    if idx < 0 then .ret none
    else .ret (columnTextCore r.poisoned r.inner idx fault)

/-- `turso_statement_column_text`. -/
def turso_statement_column_text (stmt : Option StatementWrapper) (idx : Int)
    (fault : Bool) : Outcome (Option String) :=
  match stmt with
  | none => .ret none
  | some w =>
    if idx < 0 then .ret none
    else .ret (columnTextCore w.poisoned w.statement idx fault)

/-- Core of `turso_rows_column_is_null` / `turso_statement_column_is_null`. -/
def columnIsNullCore (poisoned : Bool) (st : StmtModel) (idx : Int) (fault : Bool) :
    Bool :=
  match barrier fault none
      (if poisoned then none
       else
         match st.row with
         | some getv => some (getv idx.toNat = Value.null : Bool)
         | none => some true) with
  | some b => b
  | none => true

/-- `turso_rows_column_is_null`. -/
def turso_rows_column_is_null (rows : Option RowsWrapper) (idx : Int)
    (fault : Bool) : Outcome Bool :=
  match rows with
  | none => .ret true
  | some r =>
    if idx < 0 then .ret true
    else .ret (columnIsNullCore r.poisoned r.inner idx fault)

/-- `turso_statement_column_is_null`. -/
def turso_statement_column_is_null (stmt : Option StatementWrapper) (idx : Int)
    (fault : Bool) : Outcome Bool :=
  match stmt with
  | none => .ret true
  | some w =>
    if idx < 0 then .ret true
    else .ret (columnIsNullCore w.poisoned w.statement idx fault)

/-- Core of `turso_rows_column_blob` / `turso_statement_column_blob`.
First component: the returned pointer (the copied bytes, or null).  Second
component: the final value of the `data_len` out-parameter, `none` when
nothing was ever written to it.  The inner option layer mirrors the
`Option<*mut u8>` of the closure; `none` reaches the `unwrap_or_else`
fallback, which writes 0 and returns null.  `allocFail` models
`std::alloc::alloc` returning a null pointer. -/
def columnBlobCore (poisoned : Bool) (st : StmtModel) (idx : Int)
    (allocFail fault : Bool) : Option (List Nat) × Option Int :=
  let body : Option (Option (List Nat)) × Option Int :=
    if poisoned then (none, none)
    else
      match st.row with
      | none => (none, some 0)
      | some getv =>
        match getv idx.toNat with
        | .blob b =>
          if b.isEmpty then (some none, some 0)
          else if allocFail then (none, some 0)
          else (some (some b), some (b.length : Int))
        | _ => (none, some 0)
  match barrier fault (none, none) body with
  | (some p, w) => (p, w)
  | (none, _) => (none, some 0)

/-- `turso_rows_column_blob`. -/
def turso_rows_column_blob (rows : Option RowsWrapper) (idx : Int)
    (dataLenNull allocFail fault : Bool) : Outcome (Option (List Nat) × Option Int) :=
  match rows with
  | none => .ret (none, none)
  | some r =>
    if idx < 0 ∨ dataLenNull then .ret (none, none)
    else .ret (columnBlobCore r.poisoned r.inner idx allocFail fault)

/-- `turso_statement_column_blob`. -/
def turso_statement_column_blob (stmt : Option StatementWrapper) (idx : Int)
    (dataLenNull allocFail fault : Bool) : Outcome (Option (List Nat) × Option Int) :=
  match stmt with
  | none => .ret (none, none)
  | some w =>
    if idx < 0 ∨ dataLenNull then .ret (none, none)
    else .ret (columnBlobCore w.poisoned w.statement idx allocFail fault)

/-- `turso_statement_finalize`. -/
def turso_statement_finalize (stmt : Option StatementWrapper) (fault : Bool) :
    Outcome TursoFFIResult :=
  match stmt with
  | none => .ret (.mkError "Statement pointer is null")
  | some _ => .ret (closeEnvelope fault "Panic in statement_finalize")

/-! ### Parameter binding -/

/-- The shared body of the `bind_*` operations after their argument checks:
the `NonZero::new(param_index as usize)` match, then lock and `bind_at`,
inside the barrier.  Returns the body result and the updated wrapper
(`bind_at` appends to the record of bound parameters). -/
def bindBody (w : StatementWrapper) (idx : Int) (v : Value) (fault : Bool)
    (panicMsg : String) : Except Error Unit × StatementWrapper :=
  if idx.toNat = 0 then
    (.error (.SqlExecutionFailure "Parameter index must be greater than 0"), w)
  else
    barrier fault (.error (.SqlExecutionFailure panicMsg), w)
      (match lockStmt w with
       | .error e => (.error e, w)
       | .ok st =>
         (.ok (),
          { w with statement := { st with bound := st.bound ++ [(idx.toNat, v)] } }))

/-- `turso_statement_bind_int64`. -/
def turso_statement_bind_int64 (stmt : Option StatementWrapper) (idx : Int)
    (value : Int) (fault : Bool) : Outcome (TursoFFIResult × Option StatementWrapper) :=
  match stmt with
  | none => .ret (.mkError "Invalid parameters", none)
  | some w =>
    if idx < 1 then .ret (.mkError "Invalid parameters", some w)
    else
      let p := bindBody w idx (Value.integer value) fault "Panic in statement_bind_int64"
      .ret (TursoFFIResult.from_result p.1, some p.2)

/-- `turso_statement_bind_double`. -/
def turso_statement_bind_double (stmt : Option StatementWrapper) (idx : Int)
    (value : FloatVal) (fault : Bool) : Outcome (TursoFFIResult × Option StatementWrapper) :=
  match stmt with
  | none => .ret (.mkError "Invalid parameters", none)
  | some w =>
    if idx < 1 then .ret (.mkError "Invalid parameters", some w)
    else
      let p := bindBody w idx (Value.float value) fault "Panic in statement_bind_double"
      .ret (TursoFFIResult.from_result p.1, some p.2)

/-- `turso_statement_bind_text`. -/
def turso_statement_bind_text (stmt : Option StatementWrapper) (idx : Int)
    (value : Option CStrVal) (fault : Bool) :
    Outcome (TursoFFIResult × Option StatementWrapper) :=
  match stmt with
  | none => .ret (.mkError "Invalid parameters", none)
  | some w =>
    if idx < 1 then .ret (.mkError "Invalid parameters", some w)
    else
      match value with
      | none => .ret (.mkError "Invalid parameters", some w)
      | some .invalid =>
        .ret (TursoFFIResult.from_result
                (.error (.SqlExecutionFailure "Invalid UTF-8 string")), some w)
      | some (.valid s) =>
        let p := bindBody w idx (Value.from_text s) fault "Panic in statement_bind_text"
        .ret (TursoFFIResult.from_result p.1, some p.2)

/-- `turso_statement_reset`: locks and calls the engine's `reset()`.  Reset
does not clear previously bound parameters, so the tracked state is
unchanged. -/
def turso_statement_reset (stmt : Option StatementWrapper) (fault : Bool) :
    Outcome TursoFFIResult :=
  match stmt with
  | none => .ret (.mkError "Statement pointer is null")
  | some w =>
    .ret (TursoFFIResult.from_result
      (barrier fault (.error (.SqlExecutionFailure "Panic in statement_reset"))
        (match lockStmt w with
         | .error e => .error e
         | .ok _ => .ok ())))

/-- `turso_statement_bind_blob`.  `data = none` is a null data pointer;
`data = some bs` stands for a non-null pointer at which `dataLen` bytes
`bs` are readable. -/
def turso_statement_bind_blob (stmt : Option StatementWrapper) (idx : Int)
    (data : Option (List Nat)) (dataLen : Int) (fault : Bool) :
    Outcome (TursoFFIResult × Option StatementWrapper) :=
  match stmt with
  | none => .ret (.mkError "Invalid parameters", none)
  | some w =>
    if idx < 1 ∨ dataLen < 0 then .ret (.mkError "Invalid parameters", some w)
    else if data.isNone ∧ 0 < dataLen then .ret (.mkError "Invalid parameters", some w)
    else
      let blobData : List Nat := if dataLen = 0 then [] else data.getD []
      let p := bindBody w idx (Value.from_blob blobData) fault "Panic in statement_bind_blob"
      .ret (TursoFFIResult.from_result p.1, some p.2)

/-- `turso_statement_bind_null`. -/
def turso_statement_bind_null (stmt : Option StatementWrapper) (idx : Int)
    (fault : Bool) : Outcome (TursoFFIResult × Option StatementWrapper) :=
  match stmt with
  | none => .ret (.mkError "Invalid parameters", none)
  | some w =>
    if idx < 1 then .ret (.mkError "Invalid parameters", some w)
    else
      let p := bindBody w idx Value.null fault "Panic in statement_bind_null"
      .ret (TursoFFIResult.from_result p.1, some p.2)

/-! ### Transactions -/

/-- The control statement text for each transaction behaviour. -/
def beginSql : TransactionBehavior → String
  | .Deferred => "BEGIN DEFERRED"
  | .Immediate => "BEGIN IMMEDIATE"
  | .Exclusive => "BEGIN EXCLUSIVE"

/-- Lock the connection, prepare `sql` and drive it with `controlLoop`:
the shared body of begin/commit/rollback. -/
def connDrive (c : ConnectionWrapper) (sql rowMsg : String) : Except Error Unit :=
  match lockConn c with
  | .error e => .error e
  | .ok conn =>
    match conn.prepare sql with
    | .error m => .error (.SqlExecutionFailure m)
    | .ok st => controlLoop rowMsg st.trace.ios st.trace.final

/-- The behaviour selected by a valid integer mode (0, 1 or 2). -/
def behaviorOfMode (m : Int) : TransactionBehavior :=
  if m = 0 then .Deferred else if m = 1 then .Immediate else .Exclusive

/-- `turso_connection_begin_transaction`.  The recorded
`transaction_behavior` is assigned before the lock/prepare/step calls, so
the returned wrapper state carries the new mode even when those calls
fail or fault; an invalid mode is rejected before the assignment.  The
second component is the wrapper state after the call. -/
def turso_connection_begin_transaction (conn : Option ConnectionWrapper)
    (behavior : Int) (fault : Bool) :
    Outcome (TursoFFIResult × Option ConnectionWrapper) :=
  match conn with
  | none => .ret (.mkError "Connection pointer is null", none)
  | some c =>
    if behavior = 0 ∨ behavior = 1 ∨ behavior = 2 then
      let b := behaviorOfMode behavior
      let c' := { c with transaction_behavior := b }
      let r := barrier fault (.error (.SqlExecutionFailure "Panic in begin_transaction"))
                 (connDrive c' (beginSql b) "unexpected row during transaction begin")
      .ret (TursoFFIResult.from_result r, some c')
    else
      .ret (TursoFFIResult.from_result
              (.error (.SqlExecutionFailure "Invalid transaction behavior")), some c)

/-- `turso_connection_commit_transaction`. -/
def turso_connection_commit_transaction (conn : Option ConnectionWrapper)
    (fault : Bool) : Outcome TursoFFIResult :=
  match conn with
  | none => .ret (.mkError "Connection pointer is null")
  | some c =>
    .ret (TursoFFIResult.from_result
      (barrier fault (.error (.SqlExecutionFailure "Panic in commit_transaction"))
        (connDrive c "COMMIT" "unexpected row during commit")))

/-- `turso_connection_rollback_transaction`. -/
def turso_connection_rollback_transaction (conn : Option ConnectionWrapper)
    (fault : Bool) : Outcome TursoFFIResult :=
  match conn with
  | none => .ret (.mkError "Connection pointer is null")
  | some c =>
    .ret (TursoFFIResult.from_result
      (barrier fault (.error (.SqlExecutionFailure "Panic in rollback_transaction"))
        (connDrive c "ROLLBACK" "unexpected row during rollback")))

/-- `turso_connection_is_autocommit`.  Second component: the boolean
written through the `result` out-parameter, if any. -/
def turso_connection_is_autocommit (conn : Option ConnectionWrapper)
    (resultNull : Bool) (fault : Bool) : Outcome (TursoFFIResult × Option Bool) :=
  match conn with
  | none => .ret (.mkError "Invalid parameters", none)
  | some c =>
    if resultNull then .ret (.mkError "Invalid parameters", none)
    else
      let p : Except Error Unit × Option Bool :=
        barrier fault (.error (.SqlExecutionFailure "Panic in is_autocommit"), none)
          (match lockConn c with
           | .error e => (.error e, none)
           | .ok conn2 => (.ok (), some conn2.autocommit))
      .ret (TursoFFIResult.from_result p.1, p.2)

/-! ### Memory management

The three `turso_free_*` functions are the only exported operations whose
bodies are NOT wrapped in `catch_unwind`: a fault raised by their opaque
calls (`CString::from_raw`, `Layout::array(..).unwrap()`, `dealloc`)
propagates to the caller. -/

/-- `turso_free_string` (`ptrNull`: the argument is a null pointer). -/
def turso_free_string (ptrNull : Bool) (fault : Bool) : Outcome Unit :=
  if ptrNull then .ret ()
  else if fault then .panicked else .ret ()

/-- `turso_free_blob`. -/
def turso_free_blob (ptrNull : Bool) (dataLen : Int) (fault : Bool) : Outcome Unit :=
  if ptrNull = false ∧ 0 < dataLen then
    (if fault then .panicked else .ret ())
  else .ret ()

/-- `turso_free_error_message`: frees and nulls the `error_message` field
in place; returns the envelope state after the call. -/
def turso_free_error_message (result : Option TursoFFIResult) (fault : Bool) :
    Outcome (Option TursoFFIResult) :=
  match result with
  | none => .ret none
  | some r =>
    match r.error_message with
    | none => .ret (some r)
    | some _ =>
      if fault then .panicked
      else .ret (some { r with error_message := none })

/-! ### Auxiliary predicates and sample data -/

/-- `pat` is a prefix of `l` (on character lists). -/
def startsWithChars : List Char → List Char → Bool
  | [], _ => true
  | _ :: _, [] => false
  | p :: ps, c :: cs => p = c && startsWithChars ps cs

/-- `pat` occurs somewhere in `l`. -/
def hasSubChars (pat : List Char) : List Char → Bool
  | [] => startsWithChars pat []
  | c :: cs => startsWithChars pat (c :: cs) || hasSubChars pat cs

/-- `pat` is a substring of `hay`. -/
def containsSubstring (hay pat : String) : Bool := hasSubChars pat.data hay.data

/-- The Result-envelope invariant: success carries no message, failure
carries a non-null message. -/
def envInv (r : TursoFFIResult) : Prop :=
  (r.success = true → r.error_message = none) ∧
  (r.success = false → r.error_message.isSome = true)

/-- The envelope invariant for an operation returning an envelope. -/
def envInvO : Outcome TursoFFIResult → Prop
  | .panicked => True
  | .ret r => envInv r

/-- The envelope invariant for an operation returning an envelope paired
with an out-parameter or updated state. -/
def envInvP {β : Type} : Outcome (TursoFFIResult × β) → Prop
  | .panicked => True
  | .ret p => envInv p.1

/-- A statement model with the given trace and no other behaviour. -/
def stmtOf (t : StepTrace) : StmtModel :=
  { trace := t, nChange := 0, row := none, numColumns := 0,
    columnName := fun _ => "", bound := [] }

/-- A sample positioned row holding one value of each kind. -/
def sampleRowFn : Nat → Value := fun i =>
  if i = 0 then .text "hello"
  else if i = 1 then .integer (-42)
  else if i = 2 then .float ⟨"1.5"⟩
  else if i = 3 then .null
  else .blob [1, 2]

/-- A rows handle positioned on `sampleRowFn`. -/
def rowsWithRow : RowsWrapper :=
  { poisoned := false,
    inner := { stmtOf ⟨[], .row⟩ with row := some sampleRowFn, numColumns := 5 } }

/-- A rows handle whose next step reports `Busy`. -/
def rowsBusy : RowsWrapper := { poisoned := false, inner := stmtOf ⟨[], .busy⟩ }

/-- A statement handle whose next step reports `Done`. -/
def stmtWrapperDone : StatementWrapper :=
  { poisoned := false, statement := stmtOf ⟨[], .done⟩ }

/-- A rows handle positioned on a Text value consisting of one NUL byte. -/
def nulTextRows : RowsWrapper :=
  { poisoned := false,
    inner := { stmtOf ⟨[], .row⟩ with
               row := some (fun _ => .text (String.mk [Char.ofNat 0])),
               numColumns := 1 } }

/-- A statement handle positioned like `nulTextRows`. -/
def nulTextStmtWrapper : StatementWrapper :=
  { poisoned := false, statement := nulTextRows.inner }

/-- A sample connection: `"SELECT 1"` prepares to a one-row statement,
`"INSERT"` to a done statement with 3 changes, anything else fails to
prepare. -/
def sampleConn : ConnectionWrapper :=
  { poisoned := false,
    connection :=
      { prepare := fun s =>
          if s = "SELECT 1" then
            .ok { stmtOf ⟨[], .row⟩ with
                  row := some (fun _ => .integer 1), numColumns := 1 }
          else if s = "INSERT" then
            .ok { stmtOf ⟨[], .done⟩ with nChange := 3 }
          else .error "Parse error: unrecognized token",
        autocommit := true },
    transaction_behavior := .Deferred }

/-- `sampleConn` with a poisoned lock. -/
def poisonedConn : ConnectionWrapper := { sampleConn with poisoned := true }

/-- The integer returned to the caller by the step operations once the
lock is held: the loop value, with every error collapsed to -1. -/
def stepReturnCode (ios : List RunStep) (fin : Terminal) : Int :=
  match stepCodeLoop ios fin with
  | .ok v => v
  | .error _ => -1

/-! ## Helper lemmas -/

theorem barrier_false {α : Type} (onPanic body : α) :
    barrier false onPanic body = body := rfl

theorem barrier_true {α : Type} (onPanic body : α) :
    barrier true onPanic body = onPanic := rfl

theorem envInv_mkSuccess : envInv TursoFFIResult.mkSuccess :=
  ⟨fun _ => rfl, fun h => Bool.noConfusion h⟩

theorem envInv_mkError (m : String) : envInv (TursoFFIResult.mkError m) :=
  ⟨fun h => Bool.noConfusion h, fun _ => rfl⟩

theorem envInv_from_result (e : Except Error Unit) :
    envInv (TursoFFIResult.from_result e) := by
  cases e with
  | ok u => cases u; exact envInv_mkSuccess
  | error er => exact envInv_mkError _

/-- Characterization of the shared step loop of
`turso_rows_next`/`turso_statement_step`. -/
theorem stepCodeLoop_characterization (ios : List RunStep) (fin : Terminal) :
    (stepCodeLoop ios fin = .ok 1 ↔ (iosOk ios = true ∧ fin = .row)) ∧
    (stepCodeLoop ios fin = .ok 0 ↔ (iosOk ios = true ∧ fin = .done)) ∧
    (∀ v, stepCodeLoop ios fin = .ok v → v = 1 ∨ v = 0) := by
  induction ios with
  | nil =>
    cases fin <;> simp [stepCodeLoop, iosOk]
  | cons h t ih =>
    cases h with
    | ok => simpa [stepCodeLoop, iosOk, runStepOk] using ih
    | fail m => simp [stepCodeLoop, iosOk, runStepOk]

/-- The control-statement loop succeeds exactly when every I/O pump
succeeds and the terminal outcome is `Done`. -/
theorem controlLoop_ok_iff (msg : String) (ios : List RunStep) (fin : Terminal) :
    controlLoop msg ios fin = .ok () ↔ (iosOk ios = true ∧ fin = .done) := by
  induction ios with
  | nil => cases fin <;> simp [controlLoop, iosOk]
  | cons h t ih =>
    cases h with
    | ok => simpa [controlLoop, iosOk, runStepOk] using ih
    | fail m => simp [controlLoop, iosOk, runStepOk]

/-- A `Row` terminal outcome after successful pumps makes the control loop
report the unexpected-row error. -/
theorem controlLoop_row (msg : String) (ios : List RunStep)
    (h : iosOk ios = true) :
    controlLoop msg ios .row = .error (.SqlExecutionFailure msg) := by
  induction ios with
  | nil => rfl
  | cons hd t ih =>
    cases hd with
    | ok =>
      simp only [iosOk, List.all_cons, runStepOk, Bool.true_and] at h
      exact ih h
    | fail m => simp [iosOk, List.all_cons, runStepOk] at h

/-- The execute loop on a `Row` terminal after successful pumps. -/
theorem executeLoop_row (rc : Bool) (n : Int) (ios : List RunStep)
    (h : iosOk ios = true) :
    executeLoop rc n ios .row =
      (.error (.SqlExecutionFailure "unexpected row during execution"), none) := by
  induction ios with
  | nil => rfl
  | cons hd t ih =>
    cases hd with
    | ok =>
      simp only [iosOk, List.all_cons, runStepOk, Bool.true_and] at h
      exact ih h
    | fail m => simp [iosOk, List.all_cons, runStepOk] at h

/-- The execute loop on a `Done` terminal after successful pumps. -/
theorem executeLoop_done (rc : Bool) (n : Int) (ios : List RunStep)
    (h : iosOk ios = true) :
    executeLoop rc n ios .done =
      (.ok (), if rc then none else some (max n 0).toNat) := by
  induction ios with
  | nil => rfl
  | cons hd t ih =>
    cases hd with
    | ok =>
      simp only [iosOk, List.all_cons, runStepOk, Bool.true_and] at h
      exact ih h
    | fail m => simp [iosOk, List.all_cons, runStepOk] at h

/-! ## Claims -/

/-- Claim C1: every exported operation, given a null handle pointer,
returns its designated failure indicator without touching the handle:
Result-envelope operations (close, disconnect, finalize, rows_close,
execute, scalar int, reset, the five binds, begin/commit/rollback,
is_autocommit) return a failure envelope with `success = false` and a
non-null message; pointer-returning operations (connect, query, prepare,
column_name, column_text, column_blob, scalar string) return null; and the
integer-returning step, column_count and column_type operations return the
negative sentinel -1 — all regardless of the other arguments, the engine
state, and whether a fault is pending. -/
theorem C1_null_handle_failure :
    (∀ fault, turso_database_close none fault = .ret (.mkError "Database pointer is null")) ∧
    (∀ fault, turso_connection_close none fault = .ret (.mkError "Connection pointer is null")) ∧
    (∀ sql rcNull fault, turso_connection_execute none sql rcNull fault =
      .ret (.mkError "Invalid parameters", none)) ∧
    (∀ sql rNull fault, turso_connection_query_scalar_int none sql rNull fault =
      .ret (.mkError "Invalid parameters", none)) ∧
    (∀ fault, turso_rows_close none fault = .ret (.mkError "Rows pointer is null")) ∧
    (∀ fault, turso_statement_finalize none fault = .ret (.mkError "Statement pointer is null")) ∧
    (∀ fault, turso_statement_reset none fault = .ret (.mkError "Statement pointer is null")) ∧
    (∀ i v fault, turso_statement_bind_int64 none i v fault =
      .ret (.mkError "Invalid parameters", none)) ∧
    (∀ i v fault, turso_statement_bind_double none i v fault =
      .ret (.mkError "Invalid parameters", none)) ∧
    (∀ i v fault, turso_statement_bind_text none i v fault =
      .ret (.mkError "Invalid parameters", none)) ∧
    (∀ i d l fault, turso_statement_bind_blob none i d l fault =
      .ret (.mkError "Invalid parameters", none)) ∧
    (∀ i fault, turso_statement_bind_null none i fault =
      .ret (.mkError "Invalid parameters", none)) ∧
    (∀ m fault, turso_connection_begin_transaction none m fault =
      .ret (.mkError "Connection pointer is null", none)) ∧
    (∀ fault, turso_connection_commit_transaction none fault =
      .ret (.mkError "Connection pointer is null")) ∧
    (∀ fault, turso_connection_rollback_transaction none fault =
      .ret (.mkError "Connection pointer is null")) ∧
    (∀ rNull fault, turso_connection_is_autocommit none rNull fault =
      .ret (.mkError "Invalid parameters", none)) ∧
    (∀ m, (TursoFFIResult.mkError m).success = false ∧
      (TursoFFIResult.mkError m).error_message.isSome = true) ∧
    (∀ fault, turso_connection_open none fault = .ret none) ∧
    (∀ sql fault, turso_connection_query none sql fault = .ret none) ∧
    (∀ sql fault, turso_connection_prepare none sql fault = .ret none) ∧
    (∀ sql fault, turso_connection_query_scalar_string none sql fault = .ret none) ∧
    (∀ i fault, turso_rows_column_name none i fault = .ret none) ∧
    (∀ i fault, turso_statement_column_name none i fault = .ret none) ∧
    (∀ i fault, turso_rows_column_text none i fault = .ret none) ∧
    (∀ i fault, turso_statement_column_text none i fault = .ret none) ∧
    (∀ i dl af fault, turso_rows_column_blob none i dl af fault = .ret (none, none)) ∧
    (∀ i dl af fault, turso_statement_column_blob none i dl af fault = .ret (none, none)) ∧
    (∀ fault, turso_rows_next none fault = .ret (-1)) ∧
    (∀ fault, turso_statement_step none fault = .ret (-1)) ∧
    (∀ fault, turso_rows_column_count none fault = .ret (-1)) ∧
    (∀ fault, turso_statement_column_count none fault = .ret (-1)) ∧
    (∀ i fault, turso_rows_column_type none i fault = .ret (-1)) ∧
    (∀ i fault, turso_statement_column_type none i fault = .ret (-1)) :=
  ⟨fun _ => rfl, fun _ => rfl, fun _ _ _ => rfl, fun _ _ _ => rfl,
   fun _ => rfl, fun _ => rfl, fun _ => rfl,
   fun _ _ _ => rfl, fun _ _ _ => rfl, fun _ _ _ => rfl, fun _ _ _ _ => rfl,
   fun _ _ => rfl, fun _ _ => rfl, fun _ => rfl, fun _ => rfl, fun _ _ => rfl,
   fun _ => ⟨rfl, rfl⟩,
   fun _ => rfl, fun _ _ => rfl, fun _ _ => rfl, fun _ _ => rfl,
   fun _ _ => rfl, fun _ _ => rfl, fun _ _ => rfl, fun _ _ => rfl,
   fun _ _ _ _ => rfl, fun _ _ _ _ => rfl,
   fun _ => rfl, fun _ => rfl, fun _ => rfl, fun _ => rfl,
   fun _ _ => rfl, fun _ _ => rfl⟩

/-- Claim C5: every Result envelope constructed by any operation satisfies
the invariant that a successful envelope carries a null error message and
a failed envelope carries a non-null message. -/
theorem C5_envelope_invariant :
    (∀ db fault, envInvO (turso_database_close db fault)) ∧
    (∀ c fault, envInvO (turso_connection_close c fault)) ∧
    (∀ c sql rc fault, envInvP (turso_connection_execute c sql rc fault)) ∧
    (∀ c sql rn fault, envInvP (turso_connection_query_scalar_int c sql rn fault)) ∧
    (∀ r fault, envInvO (turso_rows_close r fault)) ∧
    (∀ s fault, envInvO (turso_statement_finalize s fault)) ∧
    (∀ s fault, envInvO (turso_statement_reset s fault)) ∧
    (∀ s i v fault, envInvP (turso_statement_bind_int64 s i v fault)) ∧
    (∀ s i v fault, envInvP (turso_statement_bind_double s i v fault)) ∧
    (∀ s i v fault, envInvP (turso_statement_bind_text s i v fault)) ∧
    (∀ s i d l fault, envInvP (turso_statement_bind_blob s i d l fault)) ∧
    (∀ s i fault, envInvP (turso_statement_bind_null s i fault)) ∧
    (∀ c m fault, envInvP (turso_connection_begin_transaction c m fault)) ∧
    (∀ c fault, envInvO (turso_connection_commit_transaction c fault)) ∧
    (∀ c fault, envInvO (turso_connection_rollback_transaction c fault)) ∧
    (∀ c rn fault, envInvP (turso_connection_is_autocommit c rn fault)) := by
  refine ⟨?_, ?_, ?_, ?_, ?_, ?_, ?_, ?_, ?_, ?_, ?_, ?_, ?_, ?_, ?_, ?_⟩ <;>
    intro h <;> intros
  all_goals
    cases h with
    | none => exact envInv_mkError _
    | some w =>
      first
        | exact envInv_from_result _
        | (simp only [turso_connection_execute, turso_connection_query_scalar_int,
              turso_statement_bind_int64, turso_statement_bind_double,
              turso_statement_bind_text, turso_statement_bind_blob,
              turso_statement_bind_null, turso_connection_begin_transaction,
              turso_connection_is_autocommit]
           repeat' split) <;>
          first | exact envInv_mkError _ | exact envInv_from_result _

/-- Evaluation of `turso_rows_next` on an unpoisoned handle without a
fault. -/
theorem rows_next_eval (r : RowsWrapper) (hp : r.poisoned = false) :
    turso_rows_next (some r) false =
      .ret (stepReturnCode r.inner.trace.ios r.inner.trace.final) := by
  simp [turso_rows_next, barrier, catch_unwind, hp, stepReturnCode]

/-- Evaluation of `turso_statement_step` on an unpoisoned handle without a
fault. -/
theorem statement_step_eval (w : StatementWrapper) (hp : w.poisoned = false) :
    turso_statement_step (some w) false =
      .ret (stepReturnCode w.statement.trace.ios w.statement.trace.final) := by
  simp [turso_statement_step, barrier, catch_unwind, hp, stepReturnCode]

/-- Characterization of the returned step code. -/
theorem stepReturnCode_characterization (ios : List RunStep) (fin : Terminal) :
    (stepReturnCode ios fin = 1 ↔ (iosOk ios = true ∧ fin = .row)) ∧
    (stepReturnCode ios fin = 0 ↔ (iosOk ios = true ∧ fin = .done)) ∧
    (stepReturnCode ios fin = 1 ∨ stepReturnCode ios fin = 0 ∨
      stepReturnCode ios fin = -1) := by
  obtain ⟨h1, h0, hv⟩ := stepCodeLoop_characterization ios fin
  unfold stepReturnCode
  cases hloop : stepCodeLoop ios fin with
  | ok v =>
    rw [hloop] at h1 h0
    rcases hv v hloop with rfl | rfl
    · simp only [Except.ok.injEq] at h1 h0
      exact ⟨by simpa using h1, by simpa using h0, Or.inl rfl⟩
    · simp only [Except.ok.injEq] at h1 h0
      exact ⟨by simpa using h1, by simpa using h0, Or.inr (Or.inl rfl)⟩
  | error m =>
    rw [hloop] at h1 h0
    refine ⟨?_, ?_, Or.inr (Or.inr rfl)⟩
    · constructor
      · intro hc
        have hc' : (-1 : Int) = 1 := hc
        exact absurd hc' (by decide)
      · intro hr
        exact Except.noConfusion (h1.mpr hr)
    · constructor
      · intro hc
        have hc' : (-1 : Int) = 0 := hc
        exact absurd hc' (by decide)
      · intro hr
        exact Except.noConfusion (h0.mpr hr)

/-- Claim C2 counterexample: the code reserves no distinct negative value
for a null handle.  A null handle returns -1, and so does stepping an
(unpoisoned, non-null) handle whose step outcome is `Busy`: the two cases
are indistinguishable from the return value. -/
theorem C2_counterexample_null_not_distinct :
    turso_rows_next none false = .ret (-1) ∧
    rowsBusy.poisoned = false ∧
    turso_rows_next (some rowsBusy) false = .ret (-1) :=
  ⟨rfl, rfl, rfl⟩

/-- Claim C2 (amended): for `turso_rows_next` and `turso_statement_step`
on a non-null, unpoisoned handle without a fault, the returned code is 1
exactly when the statement yields a row, 0 exactly when it completes with
no more rows, and otherwise -1; a poisoned lock or an internal fault also
returns -1, and so does a null handle — the null-handle return value -1 is
shared with every other error, not a distinct reserved value. -/
theorem C2_step_codes :
    (∀ fault, turso_rows_next none fault = .ret (-1) ∧
              turso_statement_step none fault = .ret (-1)) ∧
    (∀ r : RowsWrapper, r.poisoned = false →
      ((turso_rows_next (some r) false = .ret 1 ↔
          (iosOk r.inner.trace.ios = true ∧ r.inner.trace.final = .row)) ∧
       (turso_rows_next (some r) false = .ret 0 ↔
          (iosOk r.inner.trace.ios = true ∧ r.inner.trace.final = .done)) ∧
       (turso_rows_next (some r) false = .ret 1 ∨
        turso_rows_next (some r) false = .ret 0 ∨
        turso_rows_next (some r) false = .ret (-1)))) ∧
    (∀ w : StatementWrapper, w.poisoned = false →
      ((turso_statement_step (some w) false = .ret 1 ↔
          (iosOk w.statement.trace.ios = true ∧ w.statement.trace.final = .row)) ∧
       (turso_statement_step (some w) false = .ret 0 ↔
          (iosOk w.statement.trace.ios = true ∧ w.statement.trace.final = .done)) ∧
       (turso_statement_step (some w) false = .ret 1 ∨
        turso_statement_step (some w) false = .ret 0 ∨
        turso_statement_step (some w) false = .ret (-1)))) ∧
    (∀ (r : RowsWrapper) fault, r.poisoned = true ∨ fault = true →
      turso_rows_next (some r) fault = .ret (-1)) ∧
    (∀ (w : StatementWrapper) fault, w.poisoned = true ∨ fault = true →
      turso_statement_step (some w) fault = .ret (-1)) := by
  refine ⟨fun _ => ⟨rfl, rfl⟩, ?_, ?_, ?_, ?_⟩
  · intro r hp
    obtain ⟨h1, h0, hv⟩ :=
      stepReturnCode_characterization r.inner.trace.ios r.inner.trace.final
    rw [rows_next_eval r hp]
    simp only [Outcome.ret.injEq]
    exact ⟨h1, h0, by rcases hv with h | h | h <;> rw [h] <;> simp⟩
  · intro w hp
    obtain ⟨h1, h0, hv⟩ :=
      stepReturnCode_characterization w.statement.trace.ios w.statement.trace.final
    rw [statement_step_eval w hp]
    simp only [Outcome.ret.injEq]
    exact ⟨h1, h0, by rcases hv with h | h | h <;> rw [h] <;> simp⟩
  · intro r fault h
    cases fault with
    | true => rfl
    | false =>
      rcases h with hp | hf
      · simp [turso_rows_next, barrier, catch_unwind, hp]
      · exact absurd hf (by simp)
  · intro w fault h
    cases fault with
    | true => rfl
    | false =>
      rcases h with hp | hf
      · simp [turso_statement_step, barrier, catch_unwind, hp]
      · exact absurd hf (by simp)

/-- Claim C2 witness: a handle whose step yields a row returns 1. -/
theorem C2_step_codes_witness :
    turso_rows_next (some rowsWithRow) false = .ret 1 :=
  ((C2_step_codes.2.1 rowsWithRow rfl).1).mpr ⟨rfl, rfl⟩

/-- Claim C3 counterexample: the three memory-freeing operations do not
execute their bodies inside a panic-catching barrier.  A fault raised in
the body of `turso_free_string` (non-null pointer), `turso_free_blob`
(non-null pointer, positive length) or `turso_free_error_message`
(non-null envelope with a non-null message) unwinds across the ABI into
the caller instead of being converted to a failure representation. -/
theorem C3_counterexample_free_unwinds :
    turso_free_string false true = Outcome.panicked ∧
    turso_free_blob false 4 true = Outcome.panicked ∧
    turso_free_error_message (some (.mkError "boom")) true = Outcome.panicked :=
  ⟨rfl, rfl, rfl⟩

/-- `turso_free_string` panics out exactly for a non-null pointer and a
pending fault. -/
theorem free_string_char (pn fault : Bool) :
    turso_free_string pn fault = Outcome.panicked ↔ (pn = false ∧ fault = true) := by
  cases pn <;> cases fault <;> simp [turso_free_string]

/-- `turso_free_blob` panics out exactly for a non-null pointer, positive
length and a pending fault. -/
theorem free_blob_char (pn : Bool) (len : Int) (fault : Bool) :
    turso_free_blob pn len fault = Outcome.panicked ↔
      (pn = false ∧ 0 < len ∧ fault = true) := by
  cases pn <;> cases fault <;> by_cases hl : 0 < len <;>
    simp [turso_free_blob, hl]

/-- `turso_free_error_message` panics out exactly for a non-null envelope
holding a non-null message and a pending fault. -/
theorem free_error_message_char (res : Option TursoFFIResult) (fault : Bool) :
    turso_free_error_message res fault = Outcome.panicked ↔
      (fault = true ∧ ∃ r m, res = some r ∧ r.error_message = some m) := by
  cases res with
  | none => cases fault <;> simp [turso_free_error_message]
  | some r =>
    obtain ⟨su, em⟩ := r
    cases em <;> cases fault <;> simp [turso_free_error_message]

/-- Claim C3 (amended): every exported operation except the three
memory-freeing operations executes its body inside a panic-catching fault
barrier, so for every input it returns a value and never unwinds across
the ABI; the memory-freeing operations `turso_free_string`,
`turso_free_blob` and `turso_free_error_message` have no barrier, and a
fault inside their bodies (reached exactly when the freed pointer is
non-null, respectively with positive length / with a non-null message)
escapes to the caller. -/
theorem C3_fault_barrier :
    (∀ a fault, ∃ v, turso_database_open_memory a fault = .ret v) ∧
    (∀ a b c fault, ∃ v, turso_database_open_file a b c fault = .ret v) ∧
    (∀ a fault, ∃ v, turso_database_close a fault = .ret v) ∧
    (∀ a fault, ∃ v, turso_connection_open a fault = .ret v) ∧
    (∀ a fault, ∃ v, turso_connection_close a fault = .ret v) ∧
    (∀ a b c fault, ∃ v, turso_connection_execute a b c fault = .ret v) ∧
    (∀ a b fault, ∃ v, turso_connection_query a b fault = .ret v) ∧
    (∀ a b c fault, ∃ v, turso_connection_query_scalar_int a b c fault = .ret v) ∧
    (∀ a b fault, ∃ v, turso_connection_query_scalar_string a b fault = .ret v) ∧
    (∀ a b fault, ∃ v, turso_connection_prepare a b fault = .ret v) ∧
    (∀ a fault, ∃ v, turso_rows_next a fault = .ret v) ∧
    (∀ a fault, ∃ v, turso_rows_close a fault = .ret v) ∧
    (∀ a fault, ∃ v, turso_statement_step a fault = .ret v) ∧
    (∀ a fault, ∃ v, turso_rows_column_count a fault = .ret v) ∧
    (∀ a fault, ∃ v, turso_statement_column_count a fault = .ret v) ∧
    (∀ a b fault, ∃ v, turso_rows_column_name a b fault = .ret v) ∧
    (∀ a b fault, ∃ v, turso_statement_column_name a b fault = .ret v) ∧
    (∀ a b fault, ∃ v, turso_rows_column_type a b fault = .ret v) ∧
    (∀ a b fault, ∃ v, turso_statement_column_type a b fault = .ret v) ∧
    (∀ a b fault, ∃ v, turso_rows_column_int64 a b fault = .ret v) ∧
    (∀ a b fault, ∃ v, turso_statement_column_int64 a b fault = .ret v) ∧
    (∀ a b fault, ∃ v, turso_rows_column_double a b fault = .ret v) ∧
    (∀ a b fault, ∃ v, turso_statement_column_double a b fault = .ret v) ∧
    (∀ a b fault, ∃ v, turso_rows_column_text a b fault = .ret v) ∧
    (∀ a b fault, ∃ v, turso_statement_column_text a b fault = .ret v) ∧
    (∀ a b fault, ∃ v, turso_rows_column_is_null a b fault = .ret v) ∧
    (∀ a b fault, ∃ v, turso_statement_column_is_null a b fault = .ret v) ∧
    (∀ a b c d fault, ∃ v, turso_rows_column_blob a b c d fault = .ret v) ∧
    (∀ a b c d fault, ∃ v, turso_statement_column_blob a b c d fault = .ret v) ∧
    (∀ a fault, ∃ v, turso_statement_finalize a fault = .ret v) ∧
    (∀ a b c fault, ∃ v, turso_statement_bind_int64 a b c fault = .ret v) ∧
    (∀ a b c fault, ∃ v, turso_statement_bind_double a b c fault = .ret v) ∧
    (∀ a b c fault, ∃ v, turso_statement_bind_text a b c fault = .ret v) ∧
    (∀ a b c d fault, ∃ v, turso_statement_bind_blob a b c d fault = .ret v) ∧
    (∀ a b fault, ∃ v, turso_statement_bind_null a b fault = .ret v) ∧
    (∀ a fault, ∃ v, turso_statement_reset a fault = .ret v) ∧
    (∀ a b fault, ∃ v, turso_connection_begin_transaction a b fault = .ret v) ∧
    (∀ a fault, ∃ v, turso_connection_commit_transaction a fault = .ret v) ∧
    (∀ a fault, ∃ v, turso_connection_rollback_transaction a fault = .ret v) ∧
    (∀ a b fault, ∃ v, turso_connection_is_autocommit a b fault = .ret v) ∧
    (∀ pn fault, turso_free_string pn fault = Outcome.panicked ↔
      (pn = false ∧ fault = true)) ∧
    (∀ pn len fault, turso_free_blob pn len fault = Outcome.panicked ↔
      (pn = false ∧ 0 < len ∧ fault = true)) ∧
    (∀ res fault, turso_free_error_message res fault = Outcome.panicked ↔
      (fault = true ∧ ∃ r m, res = some r ∧ r.error_message = some m)) := by
  refine ⟨?_, ?_, ?_, ?_, ?_, ?_, ?_, ?_, ?_, ?_, ?_, ?_, ?_, ?_, ?_, ?_, ?_,
          ?_, ?_, ?_, ?_, ?_, ?_, ?_, ?_, ?_, ?_, ?_, ?_, ?_, ?_, ?_, ?_, ?_,
          ?_, ?_, ?_, ?_, ?_, ?_, free_string_char, free_blob_char,
          free_error_message_char⟩
  all_goals (intro h; intros)
  all_goals cases h
  all_goals try simp only [turso_database_open_file, turso_connection_execute,
    turso_connection_query, turso_connection_query_scalar_int,
    turso_connection_query_scalar_string, turso_connection_prepare,
    turso_rows_column_name, turso_statement_column_name,
    turso_rows_column_type, turso_statement_column_type,
    turso_rows_column_int64, turso_statement_column_int64,
    turso_rows_column_double, turso_statement_column_double,
    turso_rows_column_text, turso_statement_column_text,
    turso_rows_column_is_null, turso_statement_column_is_null,
    turso_rows_column_blob, turso_statement_column_blob,
    turso_statement_bind_int64, turso_statement_bind_double,
    turso_statement_bind_text, turso_statement_bind_blob,
    turso_statement_bind_null, turso_connection_begin_transaction,
    turso_connection_is_autocommit]
  all_goals (repeat' split) <;> exact ⟨_, rfl⟩

/-- Evaluation of the shared column-text core on an unpoisoned handle with
a positioned row and no fault. -/
theorem columnTextCore_eval (p : Bool) (st : StmtModel) (idx : Int)
    (getv : Nat → Value) (hp : p = false) (hrow : st.row = some getv) :
    columnTextCore p st idx false =
      (match columnTextOf (getv idx.toNat) with
       | some t => if hasNulByte t then none else some t
       | none => none) := by
  subst hp
  simp [columnTextCore, barrier, catch_unwind, hrow]

/-- The five value-shape cases of the column-text core. -/
theorem columnTextCore_cases (p : Bool) (st : StmtModel) (idx : Int)
    (getv : Nat → Value) (hp : p = false) (hrow : st.row = some getv) :
    (∀ s, getv idx.toNat = .text s → hasNulByte s = false →
       columnTextCore p st idx false = some s) ∧
    (∀ i, getv idx.toNat = .integer i → hasNulByte (intToString i) = false →
       columnTextCore p st idx false = some (intToString i)) ∧
    (∀ f, getv idx.toNat = .float f → hasNulByte f.display = false →
       columnTextCore p st idx false = some f.display) ∧
    (getv idx.toNat = .null → columnTextCore p st idx false = none) ∧
    (∀ b, getv idx.toNat = .blob b → columnTextCore p st idx false = none) := by
  rw [columnTextCore_eval p st idx getv hp hrow]
  refine ⟨?_, ?_, ?_, ?_, ?_⟩
  · intro s hv hn; rw [hv]; simp [columnTextOf, hn]
  · intro i hv hn; rw [hv]; simp [columnTextOf, hn]
  · intro f hv hn; rw [hv]; simp [columnTextOf, hn]
  · intro hv; rw [hv]; simp [columnTextOf]
  · intro b hv; rw [hv]; simp [columnTextOf]

/-- Claim C4 counterexample: on a positioned row whose in-range column 0
holds the Text value consisting of a single NUL byte, the text accessor
returns null rather than the text bytes (`CString::new` rejects interior
NULs), for both the rows-handle and the statement-handle accessor. -/
theorem C4_counterexample_nul_text :
    nulTextRows.poisoned = false ∧
    nulTextRows.inner.row = some (fun _ => Value.text (String.mk [Char.ofNat 0])) ∧
    nulTextRows.inner.numColumns = 1 ∧
    turso_rows_column_text (some nulTextRows) 0 false = .ret none ∧
    turso_statement_column_text (some nulTextStmtWrapper) 0 false = .ret none :=
  ⟨rfl, rfl, rfl, rfl, rfl⟩

/-- Claim C4 (amended): for every positioned row and in-range column index
(and no pending fault or poisoned lock), the text column accessor returns
the text bytes when the column value is Text and the bytes contain no
interior NUL (a Text value containing an interior NUL yields a null
pointer instead), returns the canonical decimal string conversion when the
value is Integer or Float, and returns no value (null pointer) when the
value is Null or Blob. -/
theorem C4_column_text :
    (∀ (r : RowsWrapper) (idx : Int) (getv : Nat → Value),
      r.poisoned = false → r.inner.row = some getv → 0 ≤ idx →
      idx.toNat < r.inner.numColumns →
      ((∀ s, getv idx.toNat = .text s → hasNulByte s = false →
          turso_rows_column_text (some r) idx false = .ret (some s)) ∧
       (∀ i, getv idx.toNat = .integer i → hasNulByte (intToString i) = false →
          turso_rows_column_text (some r) idx false = .ret (some (intToString i))) ∧
       (∀ f, getv idx.toNat = .float f → hasNulByte f.display = false →
          turso_rows_column_text (some r) idx false = .ret (some f.display)) ∧
       (getv idx.toNat = .null → turso_rows_column_text (some r) idx false = .ret none) ∧
       (∀ b, getv idx.toNat = .blob b →
          turso_rows_column_text (some r) idx false = .ret none))) ∧
    (∀ (w : StatementWrapper) (idx : Int) (getv : Nat → Value),
      w.poisoned = false → w.statement.row = some getv → 0 ≤ idx →
      idx.toNat < w.statement.numColumns →
      ((∀ s, getv idx.toNat = .text s → hasNulByte s = false →
          turso_statement_column_text (some w) idx false = .ret (some s)) ∧
       (∀ i, getv idx.toNat = .integer i → hasNulByte (intToString i) = false →
          turso_statement_column_text (some w) idx false = .ret (some (intToString i))) ∧
       (∀ f, getv idx.toNat = .float f → hasNulByte f.display = false →
          turso_statement_column_text (some w) idx false = .ret (some f.display)) ∧
       (getv idx.toNat = .null →
          turso_statement_column_text (some w) idx false = .ret none) ∧
       (∀ b, getv idx.toNat = .blob b →
          turso_statement_column_text (some w) idx false = .ret none))) := by
  constructor
  · intro r idx getv hp hrow hidx _
    have hop : turso_rows_column_text (some r) idx false =
        .ret (columnTextCore r.poisoned r.inner idx false) := by
      simp only [turso_rows_column_text]
      rw [if_neg (by omega)]
    obtain ⟨ht, hi, hf, hn, hb⟩ := columnTextCore_cases r.poisoned r.inner idx getv hp hrow
    exact ⟨fun s hv hnul => by rw [hop, ht s hv hnul],
           fun i hv hnul => by rw [hop, hi i hv hnul],
           fun f hv hnul => by rw [hop, hf f hv hnul],
           fun hv => by rw [hop, hn hv],
           fun b hv => by rw [hop, hb b hv]⟩
  · intro w idx getv hp hrow hidx _
    have hop : turso_statement_column_text (some w) idx false =
        .ret (columnTextCore w.poisoned w.statement idx false) := by
      simp only [turso_statement_column_text]
      rw [if_neg (by omega)]
    obtain ⟨ht, hi, hf, hn, hb⟩ :=
      columnTextCore_cases w.poisoned w.statement idx getv hp hrow
    exact ⟨fun s hv hnul => by rw [hop, ht s hv hnul],
           fun i hv hnul => by rw [hop, hi i hv hnul],
           fun f hv hnul => by rw [hop, hf f hv hnul],
           fun hv => by rw [hop, hn hv],
           fun b hv => by rw [hop, hb b hv]⟩

/-- Claim C4 witness: on the sample row, the text accessor returns the
text `"hello"` at column 0 and the decimal rendering `"-42"` at column 1. -/
theorem C4_column_text_witness :
    turso_rows_column_text (some rowsWithRow) 0 false = .ret (some "hello") ∧
    turso_rows_column_text (some rowsWithRow) 1 false = .ret (some (intToString (-42))) :=
  ⟨(C4_column_text.1 rowsWithRow 0 sampleRowFn rfl rfl (by decide) (by decide)).1
      "hello" rfl (by decide),
   (C4_column_text.1 rowsWithRow 1 sampleRowFn rfl rfl (by decide) (by decide)).2.1
      (-42) rfl (by decide)⟩

/-- Claim C6: for every parameter index at most zero, every bind operation
on a non-null statement handle returns the invalid-parameters failure
envelope and leaves the statement's bound parameters (indeed the whole
wrapper state) unchanged, before any engine call. -/
theorem C6_bind_nonpositive_index :
    ∀ (w : StatementWrapper) (idx : Int) (iv : Int) (fv : FloatVal)
      (tv : Option CStrVal) (d : Option (List Nat)) (len : Int) (fault : Bool),
      idx ≤ 0 →
      (turso_statement_bind_int64 (some w) idx iv fault =
        .ret (.mkError "Invalid parameters", some w) ∧
       turso_statement_bind_double (some w) idx fv fault =
        .ret (.mkError "Invalid parameters", some w) ∧
       turso_statement_bind_text (some w) idx tv fault =
        .ret (.mkError "Invalid parameters", some w) ∧
       turso_statement_bind_blob (some w) idx d len fault =
        .ret (.mkError "Invalid parameters", some w) ∧
       turso_statement_bind_null (some w) idx fault =
        .ret (.mkError "Invalid parameters", some w)) := by
  intro w idx iv fv tv d len fault h
  have h1 : idx < 1 := by omega
  refine ⟨?_, ?_, ?_, ?_, ?_⟩
  · simp only [turso_statement_bind_int64]; rw [if_pos h1]
  · simp only [turso_statement_bind_double]; rw [if_pos h1]
  · simp only [turso_statement_bind_text]; rw [if_pos h1]
  · simp only [turso_statement_bind_blob]; rw [if_pos (Or.inl h1)]
  · simp only [turso_statement_bind_null]; rw [if_pos h1]

/-- Claim C6 witness: all five binds at index 0 on a concrete handle. -/
theorem C6_bind_nonpositive_index_witness :
    turso_statement_bind_int64 (some stmtWrapperDone) 0 7 false =
      .ret (.mkError "Invalid parameters", some stmtWrapperDone) ∧
    turso_statement_bind_double (some stmtWrapperDone) 0 ⟨"0"⟩ false =
      .ret (.mkError "Invalid parameters", some stmtWrapperDone) ∧
    turso_statement_bind_text (some stmtWrapperDone) 0 (some (.valid "x")) false =
      .ret (.mkError "Invalid parameters", some stmtWrapperDone) ∧
    turso_statement_bind_blob (some stmtWrapperDone) 0 (some [1]) 1 false =
      .ret (.mkError "Invalid parameters", some stmtWrapperDone) ∧
    turso_statement_bind_null (some stmtWrapperDone) 0 false =
      .ret (.mkError "Invalid parameters", some stmtWrapperDone) :=
  C6_bind_nonpositive_index stmtWrapperDone 0 7 ⟨"0"⟩ (some (.valid "x"))
    (some [1]) 1 false (by decide)

/-- Evaluation of the shared bind body on a valid index and unpoisoned,
fault-free handle: the value is recorded at the index. -/
theorem bindBody_eval (w : StatementWrapper) (idx : Int) (v : Value) (pm : String)
    (hidx : 1 ≤ idx) (hp : w.poisoned = false) :
    bindBody w idx v false pm =
      (.ok (), { w with statement :=
        { w.statement with bound := w.statement.bound ++ [(idx.toNat, v)] } }) := by
  unfold bindBody
  rw [if_neg (by omega : ¬ idx.toNat = 0)]
  simp [barrier, catch_unwind, lockStmt, hp]

/-- Claim C7: for a valid statement handle and positive parameter index,
`bind_blob` with a null data pointer and declared length zero succeeds and
binds the empty blob; a null data pointer with positive declared length,
or any negative declared length, is rejected with a failure envelope
before any engine call (state unchanged, regardless of pending faults). -/
theorem C7_bind_blob_null_data :
    ∀ (w : StatementWrapper) (idx : Int) (fault : Bool),
      1 ≤ idx →
      ((w.poisoned = false →
         turso_statement_bind_blob (some w) idx none 0 false =
           .ret (.mkSuccess,
             some { w with statement :=
               { w.statement with
                 bound := w.statement.bound ++ [(idx.toNat, Value.blob [])] } })) ∧
       (∀ len, 0 < len →
         turso_statement_bind_blob (some w) idx none len fault =
           .ret (.mkError "Invalid parameters", some w)) ∧
       (∀ (d : Option (List Nat)) len, len < 0 →
         turso_statement_bind_blob (some w) idx d len fault =
           .ret (.mkError "Invalid parameters", some w))) := by
  intro w idx fault h
  refine ⟨?_, ?_, ?_⟩
  · intro hp
    simp only [turso_statement_bind_blob]
    rw [if_neg (by omega : ¬(idx < 1 ∨ (0 : Int) < 0))]
    rw [if_neg (by simp : ¬((none : Option (List Nat)).isNone ∧ (0 : Int) < 0))]
    show Outcome.ret
        (TursoFFIResult.from_result
          (bindBody w idx (Value.from_blob []) false "Panic in statement_bind_blob").1,
         some (bindBody w idx (Value.from_blob []) false "Panic in statement_bind_blob").2) = _
    rw [bindBody_eval w idx (Value.from_blob []) _ h hp]
    rfl
  · intro len hlen
    simp only [turso_statement_bind_blob]
    rw [if_neg (by omega : ¬(idx < 1 ∨ len < 0))]
    rw [if_pos ⟨rfl, hlen⟩]
  · intro d len hlen
    simp only [turso_statement_bind_blob]
    rw [if_pos (Or.inr hlen)]

/-- Claim C7 witness: the three cases at index 1 on a concrete handle. -/
theorem C7_bind_blob_null_data_witness :
    turso_statement_bind_blob (some stmtWrapperDone) 1 none 0 false =
      .ret (.mkSuccess,
        some { stmtWrapperDone with statement :=
          { stmtWrapperDone.statement with
            bound := stmtWrapperDone.statement.bound ++
              [((1 : Int).toNat, Value.blob [])] } }) ∧
    turso_statement_bind_blob (some stmtWrapperDone) 1 none 5 false =
      .ret (.mkError "Invalid parameters", some stmtWrapperDone) ∧
    turso_statement_bind_blob (some stmtWrapperDone) 1 (some [1, 2]) (-2) false =
      .ret (.mkError "Invalid parameters", some stmtWrapperDone) :=
  ⟨(C7_bind_blob_null_data stmtWrapperDone 1 false (by decide)).1 rfl,
   (C7_bind_blob_null_data stmtWrapperDone 1 false (by decide)).2.1 5 (by decide),
   (C7_bind_blob_null_data stmtWrapperDone 1 false (by decide)).2.2
     (some [1, 2]) (-2) (by decide)⟩

/-- Claim C8: for an execute call with valid arguments (non-null handle,
valid SQL that prepares, successful I/O pumps, no fault): if stepping
yields a `Row`, execute returns a failure envelope whose message contains
"unexpected row"; if stepping reaches `Done`, execute returns success and
writes the engine's reported change count through the `rows_changed`
out-parameter. -/
theorem C8_execute :
    ∀ (c : ConnectionWrapper) (s : String) (rcNull : Bool) (st : StmtModel),
      c.poisoned = false → c.connection.prepare s = .ok st →
      iosOk st.trace.ios = true →
      ((st.trace.final = .row →
         (turso_connection_execute (some c) (some (.valid s)) rcNull false =
            .ret (.mkError "SQL execution failure: `unexpected row during execution`",
                  none) ∧
          containsSubstring
            "SQL execution failure: `unexpected row during execution`"
            "unexpected row" = true)) ∧
       (st.trace.final = .done → 0 ≤ st.nChange → rcNull = false →
         turso_connection_execute (some c) (some (.valid s)) rcNull false =
           .ret (.mkSuccess, some st.nChange.toNat))) := by
  intro c s rcNull st hp hprep hio
  have hexec : turso_connection_execute (some c) (some (.valid s)) rcNull false =
      .ret (TursoFFIResult.from_result
              (executeLoop rcNull st.nChange st.trace.ios st.trace.final).1,
            (executeLoop rcNull st.nChange st.trace.ios st.trace.final).2) := by
    simp [turso_connection_execute, barrier, catch_unwind, lockConn, hp, hprep]
  constructor
  · intro hrow
    rw [hrow] at hexec
    rw [executeLoop_row rcNull st.nChange st.trace.ios hio] at hexec
    exact ⟨hexec, by decide⟩
  · intro hdone hn hrc
    subst hrc
    rw [hdone] at hexec
    rw [executeLoop_done false st.nChange st.trace.ios hio] at hexec
    rw [max_eq_left hn] at hexec
    exact hexec

/-- Claim C8 witness: against the sample connection, a row-producing query
fails with the unexpected-row message and a done statement reports its
3 changes. -/
theorem C8_execute_witness :
    (turso_connection_execute (some sampleConn) (some (.valid "SELECT 1")) false false =
       .ret (.mkError "SQL execution failure: `unexpected row during execution`",
             none)) ∧
    (turso_connection_execute (some sampleConn) (some (.valid "INSERT")) false false =
       .ret (.mkSuccess, some 3)) :=
  ⟨((C8_execute sampleConn "SELECT 1" false
      { stmtOf ⟨[], .row⟩ with row := some (fun _ => .integer 1), numColumns := 1 }
      rfl rfl rfl).1 rfl).1,
   (C8_execute sampleConn "INSERT" false
      { stmtOf ⟨[], .done⟩ with nChange := 3 }
      rfl rfl rfl).2 rfl (by decide) rfl⟩

/-- Claim C9: begin maps mode 0/1/2 to the control statements
BEGIN DEFERRED / BEGIN IMMEDIATE / BEGIN EXCLUSIVE, driven through the
shared step protocol (`connDrive`/`controlLoop`); any other mode yields a
failure envelope; the control loop succeeds exactly when all I/O pumps
succeed and the terminal outcome is `Done`, and a `Row` outcome during
begin, commit or rollback is reported as an error. -/
theorem C9_begin_transaction :
    ∀ (c : ConnectionWrapper) (fault : Bool) (m : Int),
      ((¬(m = 0 ∨ m = 1 ∨ m = 2) →
         turso_connection_begin_transaction (some c) m fault =
           .ret (.mkError "SQL execution failure: `Invalid transaction behavior`",
                 some c)) ∧
       (turso_connection_begin_transaction (some c) 0 false =
          .ret (.from_result
            (connDrive { c with transaction_behavior := .Deferred }
              "BEGIN DEFERRED" "unexpected row during transaction begin"),
            some { c with transaction_behavior := .Deferred })) ∧
       (turso_connection_begin_transaction (some c) 1 false =
          .ret (.from_result
            (connDrive { c with transaction_behavior := .Immediate }
              "BEGIN IMMEDIATE" "unexpected row during transaction begin"),
            some { c with transaction_behavior := .Immediate })) ∧
       (turso_connection_begin_transaction (some c) 2 false =
          .ret (.from_result
            (connDrive { c with transaction_behavior := .Exclusive }
              "BEGIN EXCLUSIVE" "unexpected row during transaction begin"),
            some { c with transaction_behavior := .Exclusive })) ∧
       (turso_connection_commit_transaction (some c) false =
          .ret (.from_result (connDrive c "COMMIT" "unexpected row during commit"))) ∧
       (turso_connection_rollback_transaction (some c) false =
          .ret (.from_result (connDrive c "ROLLBACK" "unexpected row during rollback"))) ∧
       (∀ msg ios fin, controlLoop msg ios fin = .ok () ↔
          (iosOk ios = true ∧ fin = .done)) ∧
       (∀ msg ios, iosOk ios = true →
          controlLoop msg ios .row = .error (.SqlExecutionFailure msg))) := by
  intro c fault m
  refine ⟨?_, rfl, rfl, rfl, rfl, rfl, controlLoop_ok_iff, controlLoop_row⟩
  intro hm
  simp only [turso_connection_begin_transaction]
  rw [if_neg hm]
  rfl

/-- Claim C9 witness: an invalid mode is rejected, and a Row during a
control statement is an error. -/
theorem C9_begin_transaction_witness :
    turso_connection_begin_transaction (some sampleConn) 5 false =
      .ret (.mkError "SQL execution failure: `Invalid transaction behavior`",
            some sampleConn) ∧
    controlLoop "unexpected row during commit" [] .row =
      .error (.SqlExecutionFailure "unexpected row during commit") :=
  ⟨(C9_begin_transaction sampleConn false 5).1 (by decide),
   (C9_begin_transaction sampleConn false 5).2.2.2.2.2.2.2
     "unexpected row during commit" [] rfl⟩

/-- Claim C10: for a valid connection handle and a valid mode, begin
updates the wrapper's recorded `transaction_behavior` to the requested
mode before executing the BEGIN statement: the returned wrapper state
carries the new mode for every engine outcome and even under a poisoned
lock or fault — the operation is not atomic with respect to this
per-connection state. -/
theorem C10_transaction_behavior_update :
    ∀ (c : ConnectionWrapper) (m : Int) (fault : Bool),
      (m = 0 ∨ m = 1 ∨ m = 2) →
      ∃ env, turso_connection_begin_transaction (some c) m fault =
        .ret (env, some { c with transaction_behavior := behaviorOfMode m }) := by
  intro c m fault hm
  simp only [turso_connection_begin_transaction]
  rw [if_pos hm]
  exact ⟨_, rfl⟩

/-- Claim C10 witness: on a poisoned connection (where the BEGIN statement
cannot even be locked, so the operation fails), the recorded mode is still
updated to Immediate. -/
theorem C10_transaction_behavior_update_witness :
    ∃ env, turso_connection_begin_transaction (some poisonedConn) 1 false =
      .ret (env, some { poisonedConn with
                        transaction_behavior := behaviorOfMode 1 }) :=
  C10_transaction_behavior_update poisonedConn 1 false (Or.inr (Or.inl rfl))

end Turso
